import Mathlib

/-!
Verification of the intent-broker server of the salon-booking Stripe demo
(server.js, both the plain variant and the connected-account variant: their
three POST handlers are line-for-line identical, differing only in how the
processor client is constructed).  The handlers are embedded shallowly: the
Stripe client is a record of call behaviours, and each handler returns the
HTTP response together with the exact sequence of processor calls it issued.
-/

/-- JavaScript values as they occur in the request bodies the handlers read
(`req.body.amount`, `req.body.currency`, `req.body.saveCard`).  A field that
is absent from the JSON body reads as `vUndefined`. -/
inductive JSValue where
  | vUndefined : JSValue
  | vNull : JSValue
  | vBool : Bool → JSValue
  | vNum : Int → JSValue
  | vStr : String → JSValue
deriving DecidableEq, Repr

/-- JavaScript truthiness, as used by `if (saveCard)` and `currency || 'gbp'`
in the handlers.  (`NaN` is not modelled; every other number is truthy iff it
is non-zero.) -/
def truthy : JSValue → Bool
  | JSValue.vUndefined => false
  | JSValue.vNull => false
  | JSValue.vBool b => b
  | JSValue.vNum n => n != 0
  | JSValue.vStr s => s != ""

/-- The destructured body of `POST /create-payment-intent`:
`const { amount, currency, saveCard } = req.body;`. -/
structure PaymentBody where
  amount : JSValue
  currency : JSValue
  saveCard : JSValue
deriving DecidableEq, Repr

/-- A customer object returned by `stripe.customers.create()`. -/
structure Customer where
  id : String
deriving DecidableEq, Repr

/-- A payment-intent object returned by `stripe.paymentIntents.create`. -/
structure PaymentIntent where
  client_secret : String
deriving DecidableEq, Repr

/-- A setup-intent object returned by `stripe.setupIntents.create`. -/
structure SetupIntent where
  client_secret : String
deriving DecidableEq, Repr

/-- The options object built by the `/create-payment-intent` handler and
passed to `stripe.paymentIntents.create`.  `setup_future_usage = none` models
the field being absent from the object. -/
structure PaymentIntentOptions where
  amount : JSValue
  currency : JSValue
  customer : String
  payment_method_types : List String
  setup_future_usage : Option String
deriving DecidableEq, Repr

/-- The options object passed to `stripe.setupIntents.create` by the two
setup-intent handlers. -/
structure SetupIntentOptions where
  customer : String
  payment_method_types : List String
deriving DecidableEq, Repr

/-- An exception thrown by the processor client; the handlers only ever read
`e.message`. -/
structure StripeError where
  message : String
deriving DecidableEq, Repr

/-- The behaviour of the external processor client for one request: what each
of its calls returns, or the exception it throws.  (Each handler calls
`customers.create` at most once and one intent creation at most once, so a
per-call behaviour suffices.) -/
structure StripeClient where
  customers_create : Except StripeError Customer
  paymentIntents_create : PaymentIntentOptions → Except StripeError PaymentIntent
  setupIntents_create : SetupIntentOptions → Except StripeError SetupIntent

/-- One call issued to the external processor.  `deleteCustomer` is part of
the processor API vocabulary (used to state that the handlers never clean up
an orphaned customer); the handlers under verification never emit it. -/
inductive ProcessorCall where
  | createCustomer : ProcessorCall
  | createPaymentIntent : PaymentIntentOptions → ProcessorCall
  | createSetupIntent : SetupIntentOptions → ProcessorCall
  | deleteCustomer : String → ProcessorCall
deriving DecidableEq, Repr

/-- The JSON body the handlers send back: either the success object
`{clientSecret, customerId}` or the failure object `{error: {message}}`. -/
inductive ResponseBody where
  | success : String → String → ResponseBody
  | error : String → ResponseBody
deriving DecidableEq, Repr

/-- An HTTP response: `res.send(x)` is status 200, `res.status(400).send(x)`
is status 400. -/
structure HttpResponse where
  status : Nat
  body : ResponseBody
deriving DecidableEq, Repr

/-- The payment-intent options object as built on lines 28-39 of the plain
server (lines 49-61 of the connected-account server): amount forwarded
unchanged, `currency || 'gbp'`, the fresh customer id, card only, and
`setup_future_usage: 'off_session'` added exactly when `saveCard` is truthy. -/
def paymentIntentOptions (b : PaymentBody) (customerId : String) :
    PaymentIntentOptions :=
  { amount := b.amount
    currency := if truthy b.currency then b.currency else JSValue.vStr "gbp"
    customer := customerId
    payment_method_types := ["card"]
    setup_future_usage :=
      if truthy b.saveCard then some "off_session" else none }

/-- The setup-intent options object built by both setup handlers:
`{customer: customer.id, payment_method_types: ['card']}`. -/
def setupIntentOptions (customerId : String) : SetupIntentOptions :=
  { customer := customerId
    payment_method_types := ["card"] }

/-- The `POST /create-payment-intent` handler (plain server lines 20-55,
connected-account server lines 40-77): create a customer, build the options,
create the payment intent, reply `{clientSecret, customerId}`; any thrown
exception is caught and answered with status 400 and `{error: {message}}`.
Returns the response together with the sequence of processor calls issued. -/
def create_payment_intent (stripe : StripeClient) (b : PaymentBody) :
    HttpResponse × List ProcessorCall :=
  match stripe.customers_create with
  | Except.error e =>
      (⟨400, ResponseBody.error e.message⟩, [ProcessorCall.createCustomer])
  | Except.ok customer =>
      let options := paymentIntentOptions b customer.id
      match stripe.paymentIntents_create options with
      | Except.error e =>
          (⟨400, ResponseBody.error e.message⟩,
           [ProcessorCall.createCustomer,
            ProcessorCall.createPaymentIntent options])
      | Except.ok paymentIntent =>
          (⟨200, ResponseBody.success paymentIntent.client_secret customer.id⟩,
           [ProcessorCall.createCustomer,
            ProcessorCall.createPaymentIntent options])

/-- The `POST /create-setup-intent` handler (plain server lines 60-82,
connected-account server lines 84-106): create a customer, create a setup
intent bound to it, reply `{clientSecret, customerId}`; exceptions become a
400 with `{error: {message}}`.  The request body `b` is bound but never read
by the source handler. -/
def create_setup_intent (stripe : StripeClient) (b : JSValue) :
    HttpResponse × List ProcessorCall :=
  match stripe.customers_create with
  | Except.error e =>
      (⟨400, ResponseBody.error e.message⟩, [ProcessorCall.createCustomer])
  | Except.ok customer =>
      match stripe.setupIntents_create (setupIntentOptions customer.id) with
      | Except.error e =>
          (⟨400, ResponseBody.error e.message⟩,
           [ProcessorCall.createCustomer,
            ProcessorCall.createSetupIntent (setupIntentOptions customer.id)])
      | Except.ok setupIntent =>
          (⟨200, ResponseBody.success setupIntent.client_secret customer.id⟩,
           [ProcessorCall.createCustomer,
            ProcessorCall.createSetupIntent (setupIntentOptions customer.id)])

/-- The `POST /create-customer-setup-intent` handler (plain server lines
86-108, connected-account server lines 113-131); its body is line-for-line
the same as `/create-setup-intent`.  The request body `b` is bound but never
read by the source handler. -/
def create_customer_setup_intent (stripe : StripeClient) (b : JSValue) :
    HttpResponse × List ProcessorCall :=
  match stripe.customers_create with
  | Except.error e =>
      (⟨400, ResponseBody.error e.message⟩, [ProcessorCall.createCustomer])
  | Except.ok customer =>
      match stripe.setupIntents_create (setupIntentOptions customer.id) with
      | Except.error e =>
          (⟨400, ResponseBody.error e.message⟩,
           [ProcessorCall.createCustomer,
            ProcessorCall.createSetupIntent (setupIntentOptions customer.id)])
      | Except.ok setupIntent =>
          (⟨200, ResponseBody.success setupIntent.client_secret customer.id⟩,
           [ProcessorCall.createCustomer,
            ProcessorCall.createSetupIntent (setupIntentOptions customer.id)])

/-- The payment-intent options that an execution actually passed to
`stripe.paymentIntents.create`, read off its call trace. -/
def sentPaymentOptions (tr : List ProcessorCall) : Option PaymentIntentOptions :=
  tr.findSome? fun c =>
    match c with
    | ProcessorCall.createPaymentIntent o => some o
    | _ => none

/-- Modelled from the spec: the connected-account variant documented with a
`GET /config` route (its `server.js` is not among the provided sources; only
its README describes it).  Per the spec, the route returns the publishable
key and the connected-account id from the environment as
`{publishableKey, connectedAccountId}`. -/
structure ConfigEnv where
  publishableKey : String
  connectedAccountId : String
deriving DecidableEq, Repr

/-- Modelled from the spec: the JSON body of the `GET /config` response. -/
structure ConfigBody where
  publishableKey : String
  connectedAccountId : String
deriving DecidableEq, Repr

/-- Modelled from the spec: the `GET /config` handler of the connected-account
variant returns a success response carrying both configuration values. -/
def get_config (env : ConfigEnv) : Nat × ConfigBody :=
  (200, ⟨env.publishableKey, env.connectedAccountId⟩)

/-- A mock processor on which every call succeeds. -/
def mockStripe : StripeClient :=
  { customers_create := Except.ok ⟨"cus_1"⟩
    paymentIntents_create := fun _ => Except.ok ⟨"pi_secret"⟩
    setupIntents_create := fun _ => Except.ok ⟨"seti_secret"⟩ }

/-- A mock processor whose customer creation throws. -/
def failCustomerStripe : StripeClient :=
  { customers_create := Except.error ⟨"boom"⟩
    paymentIntents_create := fun _ => Except.ok ⟨"pi_secret"⟩
    setupIntents_create := fun _ => Except.ok ⟨"seti_secret"⟩ }

/-- A mock processor whose customer creation succeeds but whose intent
creations throw. -/
def failIntentStripe : StripeClient :=
  { customers_create := Except.ok ⟨"cus_1"⟩
    paymentIntents_create := fun _ => Except.error ⟨"Invalid integer"⟩
    setupIntents_create := fun _ => Except.error ⟨"bad params"⟩ }

/-- A concrete request body: `{amount: 500, saveCard: true}`. -/
def bodySaveTrue : PaymentBody :=
  ⟨JSValue.vNum 500, JSValue.vUndefined, JSValue.vBool true⟩

/-- A concrete request body with every field absent: `{}`. -/
def bodyEmpty : PaymentBody :=
  ⟨JSValue.vUndefined, JSValue.vUndefined, JSValue.vUndefined⟩

/-- A concrete request body: `{amount: 500, currency: "usd", saveCard: false}`. -/
def bodyUsd : PaymentBody :=
  ⟨JSValue.vNum 500, JSValue.vStr "usd", JSValue.vBool false⟩

/-- A concrete request body whose `saveCard` is the string `"false"`
(truthy in JavaScript). -/
def bodySaveStrFalse : PaymentBody :=
  ⟨JSValue.vNum 500, JSValue.vUndefined, JSValue.vStr "false"⟩

theorem sentPaymentOptions_of_ok (stripe : StripeClient) (b : PaymentBody)
    (c : Customer) (hc : stripe.customers_create = Except.ok c) :
    sentPaymentOptions (create_payment_intent stripe b).2
      = some (paymentIntentOptions b c.id) := by
  simp only [create_payment_intent, hc]
  cases hp : stripe.paymentIntents_create (paymentIntentOptions b c.id) <;>
    simp [sentPaymentOptions, List.findSome?]

theorem sentPaymentOptions_of_err (stripe : StripeClient) (b : PaymentBody)
    (e : StripeError) (hc : stripe.customers_create = Except.error e) :
    sentPaymentOptions (create_payment_intent stripe b).2 = none := by
  simp [create_payment_intent, hc, sentPaymentOptions, List.findSome?]

/-- Claim C1: for every `POST /create-payment-intent` request with
`saveCard` equal to `true`, the payment-intent options passed to the
processor carry `setup_future_usage = 'off_session'`; for every request with
`saveCard` absent or `false`, the options carry no future-usage field. -/
theorem saveCard_controls_future_usage (stripe : StripeClient)
    (b : PaymentBody) (o : PaymentIntentOptions)
    (h : sentPaymentOptions (create_payment_intent stripe b).2 = some o) :
    (b.saveCard = JSValue.vBool true →
        o.setup_future_usage = some "off_session") ∧
    ((b.saveCard = JSValue.vUndefined ∨ b.saveCard = JSValue.vBool false) →
        o.setup_future_usage = none) := by
  cases hc : stripe.customers_create with
  | error e => rw [sentPaymentOptions_of_err stripe b e hc] at h; cases h
  | ok c =>
      rw [sentPaymentOptions_of_ok stripe b c hc] at h
      obtain rfl : paymentIntentOptions b c.id = o := Option.some.inj h
      constructor
      · intro hs; simp [paymentIntentOptions, truthy, hs]
      · rintro (hs | hs) <;> simp [paymentIntentOptions, truthy, hs]

/-- Witness for C1 at the all-success mock and the body
`{amount: 500, saveCard: true}`. -/
theorem saveCard_controls_future_usage_witness :
    sentPaymentOptions (create_payment_intent mockStripe bodySaveTrue).2
        = some (paymentIntentOptions bodySaveTrue "cus_1") ∧
    (paymentIntentOptions bodySaveTrue "cus_1").setup_future_usage
        = some "off_session" :=
  ⟨rfl,
   (saveCard_controls_future_usage mockStripe bodySaveTrue
      (paymentIntentOptions bodySaveTrue "cus_1") rfl).1 rfl⟩

/-- Claim C9: the `saveCard` condition is JavaScript truthiness, not equality
with `true`: the options passed to the processor carry the future-usage flag
exactly when the request value of `saveCard` is truthy (so also for a
non-empty string such as `"false"` or a non-zero number, and never for
`false`, `0`, `null`, the empty string, or an absent field). -/
theorem saveCard_is_truthiness (stripe : StripeClient)
    (b : PaymentBody) (o : PaymentIntentOptions)
    (h : sentPaymentOptions (create_payment_intent stripe b).2 = some o) :
    o.setup_future_usage
      = (if truthy b.saveCard then some "off_session" else none) := by
  cases hc : stripe.customers_create with
  | error e => rw [sentPaymentOptions_of_err stripe b e hc] at h; cases h
  | ok c =>
      rw [sentPaymentOptions_of_ok stripe b c hc] at h
      obtain rfl : paymentIntentOptions b c.id = o := Option.some.inj h
      rfl

/-- Witness for C9: with `saveCard: "false"` (a truthy string) the flag is
attached. -/
theorem saveCard_is_truthiness_witness :
    (paymentIntentOptions bodySaveStrFalse "cus_1").setup_future_usage
      = some "off_session" :=
  (saveCard_is_truthiness mockStripe bodySaveStrFalse
      (paymentIntentOptions bodySaveStrFalse "cus_1") rfl).trans (by decide)

/-- Claim C7: when the request's `currency` is absent or the empty string,
the options passed to the processor carry `'gbp'`; when it is a non-empty
string `s`, they carry `s` unchanged. -/
theorem currency_defaults_to_gbp (stripe : StripeClient)
    (b : PaymentBody) (o : PaymentIntentOptions)
    (h : sentPaymentOptions (create_payment_intent stripe b).2 = some o) :
    ((b.currency = JSValue.vUndefined ∨ b.currency = JSValue.vStr "") →
        o.currency = JSValue.vStr "gbp") ∧
    (∀ s : String, s ≠ "" → b.currency = JSValue.vStr s →
        o.currency = JSValue.vStr s) := by
  cases hc : stripe.customers_create with
  | error e => rw [sentPaymentOptions_of_err stripe b e hc] at h; cases h
  | ok c =>
      rw [sentPaymentOptions_of_ok stripe b c hc] at h
      obtain rfl : paymentIntentOptions b c.id = o := Option.some.inj h
      constructor
      · rintro (hs | hs) <;> simp [paymentIntentOptions, truthy, hs]
      · intro s hs hb; simp [paymentIntentOptions, truthy, hb, hs]

/-- Witness for C7: absent currency becomes `'gbp'`; `"usd"` passes
unchanged. -/
theorem currency_defaults_to_gbp_witness :
    (paymentIntentOptions bodyEmpty "cus_1").currency = JSValue.vStr "gbp" ∧
    (paymentIntentOptions bodyUsd "cus_1").currency = JSValue.vStr "usd" :=
  ⟨(currency_defaults_to_gbp mockStripe bodyEmpty
      (paymentIntentOptions bodyEmpty "cus_1") rfl).1 (Or.inl rfl),
   (currency_defaults_to_gbp mockStripe bodyUsd
      (paymentIntentOptions bodyUsd "cus_1") rfl).2 "usd" (by decide) rfl⟩

/-- Claim C6: `POST /create-payment-intent` performs no local validation of
`amount`: whatever the request body holds (absent, non-numeric, anything),
once the customer is created the handler passes the options with the amount
value unchanged to the processor, and a processor rejection surfaces only
through the 400 error path. -/
theorem amount_forwarded_unvalidated (stripe : StripeClient)
    (b : PaymentBody) (c : Customer)
    (hc : stripe.customers_create = Except.ok c) :
    sentPaymentOptions (create_payment_intent stripe b).2
        = some (paymentIntentOptions b c.id) ∧
    (paymentIntentOptions b c.id).amount = b.amount ∧
    (∀ e : StripeError,
        stripe.paymentIntents_create (paymentIntentOptions b c.id)
            = Except.error e →
        (create_payment_intent stripe b).1
            = ⟨400, ResponseBody.error e.message⟩) := by
  refine ⟨sentPaymentOptions_of_ok stripe b c hc, rfl, fun e he => ?_⟩
  simp [create_payment_intent, hc, he]

/-- Witness for C6: `amount` absent from the body is forwarded as-is and the
processor message comes back as a 400. -/
theorem amount_forwarded_unvalidated_witness :
    sentPaymentOptions (create_payment_intent failIntentStripe bodyEmpty).2
        = some (paymentIntentOptions bodyEmpty "cus_1") ∧
    (paymentIntentOptions bodyEmpty "cus_1").amount = bodyEmpty.amount ∧
    (create_payment_intent failIntentStripe bodyEmpty).1
        = ⟨400, ResponseBody.error "Invalid integer"⟩ :=
  ⟨(amount_forwarded_unvalidated failIntentStripe bodyEmpty ⟨"cus_1"⟩ rfl).1,
   (amount_forwarded_unvalidated failIntentStripe bodyEmpty ⟨"cus_1"⟩ rfl).2.1,
   (amount_forwarded_unvalidated failIntentStripe bodyEmpty ⟨"cus_1"⟩ rfl).2.2
      ⟨"Invalid integer"⟩ rfl⟩

/-- Claim C2: for each of the three POST endpoints and every exception the
processor throws during customer or intent creation, the response is HTTP 400
with body `{error: {message}}` carrying exactly the thrown message, and the
call trace shows each processor call issued exactly once (no retry). -/
theorem processor_errors_yield_400 (stripe : StripeClient)
    (b : PaymentBody) (v : JSValue) (e : StripeError) :
    (stripe.customers_create = Except.error e →
        create_payment_intent stripe b
          = (⟨400, ResponseBody.error e.message⟩,
             [ProcessorCall.createCustomer]) ∧
        create_setup_intent stripe v
          = (⟨400, ResponseBody.error e.message⟩,
             [ProcessorCall.createCustomer]) ∧
        create_customer_setup_intent stripe v
          = (⟨400, ResponseBody.error e.message⟩,
             [ProcessorCall.createCustomer])) ∧
    (∀ c : Customer, stripe.customers_create = Except.ok c →
        (stripe.paymentIntents_create (paymentIntentOptions b c.id)
            = Except.error e →
          create_payment_intent stripe b
            = (⟨400, ResponseBody.error e.message⟩,
               [ProcessorCall.createCustomer,
                ProcessorCall.createPaymentIntent
                  (paymentIntentOptions b c.id)])) ∧
        (stripe.setupIntents_create (setupIntentOptions c.id)
            = Except.error e →
          create_setup_intent stripe v
            = (⟨400, ResponseBody.error e.message⟩,
               [ProcessorCall.createCustomer,
                ProcessorCall.createSetupIntent (setupIntentOptions c.id)]) ∧
          create_customer_setup_intent stripe v
            = (⟨400, ResponseBody.error e.message⟩,
               [ProcessorCall.createCustomer,
                ProcessorCall.createSetupIntent (setupIntentOptions c.id)]))) := by
  constructor
  · intro hc
    refine ⟨?_, ?_, ?_⟩ <;>
      simp [create_payment_intent, create_setup_intent,
            create_customer_setup_intent, hc]
  · intro c hc
    constructor
    · intro hp
      simp [create_payment_intent, hc, hp]
    · intro hs
      constructor <;>
        simp [create_setup_intent, create_customer_setup_intent, hc, hs]

/-- Witness for C2 at a mock whose customer creation throws `"boom"`. -/
theorem processor_errors_yield_400_witness :
    create_payment_intent failCustomerStripe bodyEmpty
      = (⟨400, ResponseBody.error "boom"⟩, [ProcessorCall.createCustomer]) ∧
    create_setup_intent failCustomerStripe JSValue.vUndefined
      = (⟨400, ResponseBody.error "boom"⟩, [ProcessorCall.createCustomer]) ∧
    create_customer_setup_intent failCustomerStripe JSValue.vUndefined
      = (⟨400, ResponseBody.error "boom"⟩, [ProcessorCall.createCustomer]) :=
  (processor_errors_yield_400 failCustomerStripe bodyEmpty
      JSValue.vUndefined ⟨"boom"⟩).1 rfl

/-- Claim C3: when both processor calls succeed, `POST /create-payment-intent`
first creates a customer, then creates a payment intent whose options are
exactly the amount, the (defaulted) currency, the fresh customer id, card
only, and the conditional future-usage flag; the response carries the created
intent client secret and the customer id, non-empty whenever the processor
returns non-empty values — in particular for every positive integer amount. -/
theorem payment_intent_success_shape (stripe : StripeClient)
    (b : PaymentBody) (c : Customer) (p : PaymentIntent)
    (hc : stripe.customers_create = Except.ok c)
    (hp : stripe.paymentIntents_create (paymentIntentOptions b c.id)
            = Except.ok p)
    (hid : c.id ≠ "") (hsec : p.client_secret ≠ "") :
    create_payment_intent stripe b
      = (⟨200, ResponseBody.success p.client_secret c.id⟩,
         [ProcessorCall.createCustomer,
          ProcessorCall.createPaymentIntent (paymentIntentOptions b c.id)]) ∧
    paymentIntentOptions b c.id
      = ⟨b.amount,
         if truthy b.currency then b.currency else JSValue.vStr "gbp",
         c.id, ["card"],
         if truthy b.saveCard then some "off_session" else none⟩ ∧
    p.client_secret ≠ "" ∧ c.id ≠ "" := by
  refine ⟨?_, rfl, hsec, hid⟩
  simp [create_payment_intent, hc, hp]

/-- Witness for C3 at the all-success mock with `amount = 500` and
`saveCard: true`. -/
theorem payment_intent_success_shape_witness :
    create_payment_intent mockStripe bodySaveTrue
      = (⟨200, ResponseBody.success "pi_secret" "cus_1"⟩,
         [ProcessorCall.createCustomer,
          ProcessorCall.createPaymentIntent
            (paymentIntentOptions bodySaveTrue "cus_1")]) ∧
    paymentIntentOptions bodySaveTrue "cus_1"
      = ⟨bodySaveTrue.amount,
         if truthy bodySaveTrue.currency then bodySaveTrue.currency
           else JSValue.vStr "gbp",
         "cus_1", ["card"],
         if truthy bodySaveTrue.saveCard then some "off_session" else none⟩ ∧
    ("pi_secret" : String) ≠ "" ∧ ("cus_1" : String) ≠ "" :=
  payment_intent_success_shape mockStripe bodySaveTrue
    ⟨"cus_1"⟩ ⟨"pi_secret"⟩ rfl rfl (by decide) (by decide)

/-- Claim C8: whenever customer creation succeeds and the subsequent intent
creation fails, the handler issues no further processor call — the failed
intent call ends the trace and in particular no `deleteCustomer` is ever
issued — before returning the error response. -/
theorem orphaned_customer_left_in_place (stripe : StripeClient)
    (b : PaymentBody) (v : JSValue) (c : Customer) (e : StripeError)
    (hc : stripe.customers_create = Except.ok c) :
    (stripe.paymentIntents_create (paymentIntentOptions b c.id)
        = Except.error e →
      (create_payment_intent stripe b).2
        = [ProcessorCall.createCustomer,
           ProcessorCall.createPaymentIntent (paymentIntentOptions b c.id)] ∧
      ∀ s : String,
        ProcessorCall.deleteCustomer s ∉ (create_payment_intent stripe b).2) ∧
    (stripe.setupIntents_create (setupIntentOptions c.id) = Except.error e →
      (create_setup_intent stripe v).2
        = [ProcessorCall.createCustomer,
           ProcessorCall.createSetupIntent (setupIntentOptions c.id)] ∧
      (create_customer_setup_intent stripe v).2
        = [ProcessorCall.createCustomer,
           ProcessorCall.createSetupIntent (setupIntentOptions c.id)] ∧
      ∀ s : String,
        ProcessorCall.deleteCustomer s ∉ (create_setup_intent stripe v).2 ∧
        ProcessorCall.deleteCustomer s
          ∉ (create_customer_setup_intent stripe v).2) := by
  constructor
  · intro hp
    refine ⟨?_, fun s => ?_⟩ <;> simp [create_payment_intent, hc, hp]
  · intro hs
    refine ⟨?_, ?_, fun s => ⟨?_, ?_⟩⟩ <;>
      simp [create_setup_intent, create_customer_setup_intent, hc, hs]

/-- Witness for C8 at a mock whose intent creations throw. -/
theorem orphaned_customer_left_in_place_witness :
    (create_payment_intent failIntentStripe bodyEmpty).2
      = [ProcessorCall.createCustomer,
         ProcessorCall.createPaymentIntent
           (paymentIntentOptions bodyEmpty "cus_1")] ∧
    ∀ s : String,
      ProcessorCall.deleteCustomer s
        ∉ (create_payment_intent failIntentStripe bodyEmpty).2 :=
  (orphaned_customer_left_in_place failIntentStripe bodyEmpty
      JSValue.vUndefined ⟨"cus_1"⟩ ⟨"Invalid integer"⟩ rfl).1 rfl

/-- Claim C4: `POST /create-setup-intent` and
`POST /create-customer-setup-intent` are observationally identical: for every
processor behaviour and every request body they return the same response and
issue the same sequence of processor calls. -/
theorem setup_endpoints_identical (stripe : StripeClient) (v : JSValue) :
    create_setup_intent stripe v = create_customer_setup_intent stripe v :=
  rfl

/-- Claim C10: the two setup endpoints never read the request body: any two
request bodies produce the same processor calls and the same response under
the same processor behaviour. -/
theorem setup_endpoints_body_noninterference (stripe : StripeClient)
    (v₁ v₂ : JSValue) :
    create_setup_intent stripe v₁ = create_setup_intent stripe v₂ ∧
    create_customer_setup_intent stripe v₁
      = create_customer_setup_intent stripe v₂ :=
  ⟨rfl, rfl⟩

/-- Claim C5 (handler modelled from the spec, see `get_config`): in the
connected-account variant, `GET /config` returns a success response
containing the publishable key and the connected-account id. -/
theorem config_returns_keys (env : ConfigEnv) :
    get_config env = (200, ⟨env.publishableKey, env.connectedAccountId⟩) :=
  rfl
